import Mathlib

/-!
Shallow embedding of the VergeGrid TUI control panel backend
(`src/vg/backend/transport.py`, `src/vg/backend/tmux.py`,
`src/vg/backend/estates.py`) and of the estate/robust control operations of
`src/gridctl_complete.py`, together with theorems settling the frozen claims
about the natural-language specification.

External effects (the tmux daemon, the filesystem, environment variables,
subprocess exit codes) are modelled as explicit state records and oracle
functions; each Python function is translated clause by clause.
-/

namespace VergeGrid

/-- From `src/vg/backend/transport.py`, `TransportConfig` dataclass:
mode, host, user, port (default 22), identity file, password.
Unset optional fields are `none`. -/
structure TransportConfig where
  mode : String
  host : Option String := none
  user : Option String := none
  port : Nat := 22
  identity_file : Option String := none
  password : Option String := none
deriving Repr, DecidableEq

/-- Python truthiness of an optional string (`None` and `""` are falsy). -/
def truthy (o : Option String) : Bool :=
  o.getD "" ≠ ""

/-- From `SSHTransport._ssh_prefix` (transport.py lines 67-73):
`["ssh", "-p", str(port)]`, then `["-i", identity_file]` when the identity
file is set, then the `user@host` token (empty user prefix when unset). -/
def ssh_prefix_cmd (cfg : TransportConfig) : List String :=
  let user_host := (if truthy cfg.user then cfg.user.getD "" ++ "@" else "")
    ++ cfg.host.getD ""
  let pre := ["ssh", "-p", toString cfg.port]
  let pre := pre ++ (if truthy cfg.identity_file then
    ["-i", cfg.identity_file.getD ""] else [])
  pre ++ [user_host]

/-- From `SSHTransport.run` (transport.py line 76): the argv actually
executed is `self._ssh_prefix() + command`. -/
def ssh_run_argv (cfg : TransportConfig) (command : List String) : List String :=
  ssh_prefix_cmd cfg ++ command

/-- From `_probe_ssh` (transport.py lines 106-126): the probe argv is
`ssh -o BatchMode=yes -o StrictHostKeyChecking=accept-new -o ConnectTimeout=5
-p PORT [-i IDENTITY] user@host true`. -/
def probe_ssh_cmd (host : String) (user : Option String) (port : Nat)
    (identity : Option String) : List String :=
  let user_host := (if truthy user then user.getD "" ++ "@" else "") ++ host
  let cmd := ["ssh", "-o", "BatchMode=yes", "-o",
    "StrictHostKeyChecking=accept-new", "-o", "ConnectTimeout=5", "-p",
    toString port]
  let cmd := cmd ++ (if truthy identity then ["-i", identity.getD ""] else [])
  cmd ++ [user_host, "true"]

/-- Model of the process environment and of the external facts
`detect_transport` consults: environment variables (`os.environ.get`),
`shutil.which("tmux")`, `Path(...).exists()` and the exit status of the
probe ssh subprocess (`returncode == 0` for a given argv). -/
structure Env where
  vars : String → Option String
  which_tmux : Bool
  path_exists : String → Bool
  ssh_rc_zero : List String → Bool

/-- Python `str.lower()` (over the character list, so that it evaluates
inside the kernel). -/
def str_lower (s : String) : String :=
  ⟨s.data.map Char.toLower⟩

/-- From `_env_bool` (transport.py lines 102-103):
`os.environ.get(name, "").lower() in {"1", "true", "yes", "on"}`. -/
def env_bool (e : Env) (name : String) : Bool :=
  ["1", "true", "yes", "on"].contains (str_lower ((e.vars name).getD ""))

/-- From `_probe_ssh` (transport.py lines 106-126): returns `False` for an
empty host, otherwise runs the probe argv and tests `returncode == 0`. -/
def probe_ssh (e : Env) (host : String) (user : Option String) (port : Nat)
    (identity : Option String) : Bool :=
  if host = "" then false
  else e.ssh_rc_zero (probe_ssh_cmd host user port identity)

/-- Result of `detect_transport`: a `LocalTransport`, an `SSHTransport`
carrying its constructor arguments, or an `UnknownTransport`. -/
inductive TransportResult where
  | localT : TransportResult
  | ssh (host : String) (user : Option String) (port : Nat)
      (identity_file : Option String) (password : Option String) : TransportResult
  | unknown : TransportResult
deriving Repr, DecidableEq

/-- Decimal parse of a string of digits (`int(...)` on its success domain),
written over the character list so that it evaluates inside the kernel. -/
def str_to_nat (s : String) : Option Nat :=
  if s.data ≠ [] ∧ s.data.all Char.isDigit then
    some (s.data.foldl (fun n c => n * 10 + (c.toNat - 48)) 0)
  else none

/-- Port variable read, `int(os.environ.get("VG_REMOTE_PORT", "22"))`: parse of the port
variable (claims never exercise a malformed port, where Python would raise). -/
def env_port (e : Env) : Nat :=
  (str_to_nat ((e.vars "VG_REMOTE_PORT").getD "22")).getD 22

/-- Env read `os.environ.get("VG_REMOTE_HOST", "")`. -/
def env_host (e : Env) : String := (e.vars "VG_REMOTE_HOST").getD ""

/-- Env read `os.environ.get("VG_REMOTE_USER")`. -/
def env_user (e : Env) : Option String := e.vars "VG_REMOTE_USER"

/-- Env read `os.environ.get("VG_REMOTE_KEY")`. -/
def env_key (e : Env) : Option String := e.vars "VG_REMOTE_KEY"

/-- Env read `os.environ.get("VG_REMOTE_PASSWORD")`. -/
def env_password (e : Env) : Option String := e.vars "VG_REMOTE_PASSWORD"

/-- Fallback host, `cfg.host if cfg else os.environ.get("VG_REMOTE_HOST", "")`
(transport.py line 153), as the string whose truthiness is tested. -/
def fb_host (e : Env) (cfg : Option TransportConfig) : String :=
  match cfg with
  | some c => c.host.getD ""
  | none => env_host e

/-- Fallback user, `cfg.user if cfg else os.environ.get("VG_REMOTE_USER")` (line 154). -/
def fb_user (e : Env) (cfg : Option TransportConfig) : Option String :=
  match cfg with
  | some c => c.user
  | none => env_user e

/-- Fallback port, `cfg.port if cfg else int(os.environ.get("VG_REMOTE_PORT", "22"))`
(line 155). -/
def fb_port (e : Env) (cfg : Option TransportConfig) : Nat :=
  match cfg with
  | some c => c.port
  | none => env_port e

/-- Fallback identity, `cfg.identity_file if cfg else os.environ.get("VG_REMOTE_KEY")`
(line 156). -/
def fb_key (e : Env) (cfg : Option TransportConfig) : Option String :=
  match cfg with
  | some c => c.identity_file
  | none => env_key e

/-- Fallback password, `cfg.password if cfg else os.environ.get("VG_REMOTE_PASSWORD")`
(line 157). -/
def fb_password (e : Env) (cfg : Option TransportConfig) : Option String :=
  match cfg with
  | some c => c.password
  | none => env_password e

/-- From `detect_transport` (transport.py lines 129-161), clause by clause:
force-ssh override (SSH only when host truthy, identity truthy and the probe
passes, else Unknown), force-local override, the local heuristic (tmux on
PATH and both paths exist), then the SSH fallback from env vars or the
provided config, else Unknown. -/
def detect_transport (e : Env) (base estates : String)
    (cfg : Option TransportConfig) : TransportResult :=
  if env_bool e "VG_FORCE_SSH" then
    let host := env_host e
    let user := env_user e
    let port := env_port e
    let ident := env_key e
    let pwd := env_password e
    if host ≠ "" ∧ (truthy ident ∨ truthy pwd) then
      if truthy ident ∧ probe_ssh e host user port ident then
        .ssh host user port ident pwd
      else .unknown
    else .unknown
  else if env_bool e "VG_FORCE_LOCAL" then
    .localT
  else
    let tmux_available := e.which_tmux
    let base_exists := e.path_exists base
    let estates_exists := e.path_exists estates
    if tmux_available ∧ base_exists ∧ estates_exists then
      .localT
    else
      let host := fb_host e cfg
      let user := fb_user e cfg
      let port := fb_port e cfg
      let ident := fb_key e cfg
      let pwd := fb_password e cfg
      if host ≠ "" ∧ (truthy ident ∨ truthy pwd) then
        .ssh host user port ident pwd
      else .unknown

/-- Model of one directory entry of the estates root, carrying the three
filesystem facts `_is_valid_estate_local` consults about `root / name`:
`path.is_dir()`, `(path / "OpenSim.ini").exists()` and the result of
`(path / "Regions").glob("*.ini")`. -/
structure EstateEntry where
  name : String
  is_dir : Bool
  opensim_ini : Bool
  region_inis : List String
deriving Repr, DecidableEq

/-- Model of the local estates root as seen by `detect_estates`:
whether `Path(estates_root).exists()` and the entries of `root.iterdir()`
in iteration order. -/
structure EstatesRoot where
  rootExists : Bool
  children : List EstateEntry
deriving Repr, DecidableEq

/-- From `_is_valid_estate_local` (estates.py lines 9-15): the path must be
a directory, contain `OpenSim.ini`, and `Regions/*.ini` must be non-empty. -/
def is_valid_estate_local (e : EstateEntry) : Bool :=
  if ¬ e.is_dir then false
  else if ¬ e.opensim_ini then false
  else e.region_inis.length > 0

/-- Lexicographic comparison of character lists by code point, the order
Python string comparison (and hence `sorted`) uses. -/
def chars_le : List Char → List Char → Bool
  | [], _ => true
  | _ :: _, [] => false
  | a :: as, b :: bs =>
    if a.toNat < b.toNat then true
    else if b.toNat < a.toNat then false
    else chars_le as bs

/-- Lexicographic order on strings by code point. -/
def str_le (a b : String) : Bool := chars_le a.data b.data

/-- The order `str_le` as a decidable relation, for sorting. -/
abbrev strOrd : String → String → Prop := fun a b => str_le a b = true

/-- From `detect_estates` (estates.py lines 18-28, local branch): empty list
when the root does not exist, otherwise the names of the children passing
`_is_valid_estate_local`, sorted ascending (`sorted(names)`, modelled with
insertion sort under the lexicographic string order — Python's sort is
stable, and insertion sort is stable). -/
def detect_estates (fs : EstatesRoot) : List String :=
  if ¬ fs.rootExists then []
  else List.insertionSort strOrd
    ((fs.children.filter is_valid_estate_local).map EstateEntry.name)

/-- Abstract command runner over a world state `σ`, mirroring the
`Transport.run` interface of transport.py: running an argv transforms the
world and yields a return code. -/
structure Machine (σ : Type) where
  run : σ → List String → σ × Nat

/-- Model of the external tmux daemon's observable behaviour for the exact
commands the code issues (tmux is not part of this repository; its
documented behaviour is: `new-session -d -s s` fails when session `s`
already exists, `new-window -t s -n n` appends a window — duplicate window
names are allowed — and fails when the session is missing).
`available` models whether the tmux binary works (`tmux -V` exit 0);
`window_ok` models external failure of window creation. -/
structure TmuxServer where
  available : Bool
  sessions : List String
  windows : List (String × String)
  window_ok : Bool
deriving Repr, DecidableEq

/-- Step function of the tmux daemon model on the argvs used by tmux.py. -/
def tmux_run (t : TmuxServer) : List String → TmuxServer × Nat
  | ["tmux", "-V"] => (t, if t.available then 0 else 1)
  | ["tmux", "new-session", "-d", "-s", s, "-x", "200", "-y", "50"] =>
    if ¬ t.available then (t, 1)
    else if t.sessions.contains s then (t, 1)
    else ({ t with sessions := s :: t.sessions }, 0)
  | ["tmux", "new-window", "-t", s, "-n", n, _c] =>
    if ¬ t.available then (t, 1)
    else if t.sessions.contains s ∧ t.window_ok then
      ({ t with windows := t.windows ++ [(s, n)] }, 0)
    else (t, 1)
  | ["tmux", "send-keys", "-t", _tgt, _txt, "C-m"] =>
    (t, if t.available then 0 else 1)
  | _ => (t, 1)

/-- The tmux daemon model packaged as a `Machine`. -/
def tmuxMachine : Machine TmuxServer := ⟨tmux_run⟩

/-- From `ensure_tmux` (tmux.py lines 8-12): run `tmux -V` through the
transport and test `returncode == 0`. -/
def ensure_tmux {σ : Type} (m : Machine σ) (s0 : σ) : σ × Bool :=
  let (s1, rc) := m.run s0 ["tmux", "-V"]
  (s1, rc == 0)

/-- From `new_window` (tmux.py lines 15-25): bail out when tmux is
unavailable; run `new-session -d -s session -x 200 -y 50` discarding its
result; run `new-window -t session -n name command`; return
`session ++ ":" ++ name` exactly when the latter exits 0. -/
def new_window {σ : Type} (m : Machine σ) (s0 : σ)
    (session name command : String) : σ × Option String :=
  let (s1, ok) := ensure_tmux m s0
  if ¬ ok then (s1, none)
  else
    let (s2, _) := m.run s1
      ["tmux", "new-session", "-d", "-s", session, "-x", "200", "-y", "50"]
    let (s3, rc) := m.run s2 ["tmux", "new-window", "-t", session, "-n", name, command]
    if rc ≠ 0 then (s3, none)
    else (s3, some (session ++ ":" ++ name))

/-- From `send_text` (tmux.py lines 28-33): bail out when tmux is
unavailable; run `send-keys -t target text C-m`; report `returncode == 0`. -/
def send_text {σ : Type} (m : Machine σ) (s0 : σ) (target text : String) : σ × Bool :=
  let (s1, ok) := ensure_tmux m s0
  if ¬ ok then (s1, false)
  else
    let (s2, rc) := m.run s1 ["tmux", "send-keys", "-t", target, text, "C-m"]
    (s2, rc == 0)

/-- The two path settings of `AppConfig` the control operations use:
`config.base` and `config.estates`. -/
structure Config where
  base : String
  estates : String
deriving Repr, DecidableEq

/-- The session-marker registry `~/.gridstl_sessions/`: an association from
marker file stem (`"estate_" ++ estate` or `"robust"`, the Python file names
being `estate_{estate}.session` / `robust.session`) to file content (the
saved tmux target). -/
abbrev Registry := List (String × String)

/-- Content of the marker for `key`, `none` when the file does not exist
(`session_file.exists()` / `read_text().strip()`). -/
def get_marker (reg : Registry) (key : String) : Option String :=
  (reg.find? (fun p => p.1 == key)).map Prod.snd

/-- Marker write `session_file.write_text(content)`: create or overwrite the marker. -/
def set_marker (reg : Registry) (key content : String) : Registry :=
  (reg.filter (fun p => p.1 ≠ key)) ++ [(key, content)]

/-- Marker removal `session_file.unlink(missing_ok=True)`: remove the marker if present. -/
def del_marker (reg : Registry) (key : String) : Registry :=
  reg.filter (fun p => p.1 ≠ key)

/-- Mutable world the control operations act on: the tmux daemon and the
marker registry. -/
structure World where
  tmux : TmuxServer
  registry : Registry
deriving Repr, DecidableEq

/-- Externally observable actions of a control operation, for trace claims:
an `asyncio.sleep(n)`, a `tmux.send_text(target, text, ...)` call, a
`subprocess.run(["pkill", "-f", pattern])`, a status-log write, and the
start of one estate inside `start_all_estates`. -/
inductive Act where
  | sleep (seconds : Nat)
  | sendText (target text : String)
  | pkill (pattern : String)
  | log (msg : String)
  | startEstate (estate : String)
deriving Repr, DecidableEq

/-- The shell command `start_estate` builds (gridctl_complete.py lines
711-714) from the base path, the estate and its extra args. -/
def start_command (cfg : Config) (estate extra_args : String) : String :=
  "cd \"" ++ cfg.base ++ "\"; ulimit -s 262144; " ++
  "exec dotnet OpenSim.dll --hypergrid=true --inidirectory=\"" ++
  cfg.estates ++ "/" ++ estate ++ "\" " ++ extra_args

/-- From `EstateControlScreen.start_estate` (gridctl_complete.py lines
695-729): read the extra args (`argsOf`, the stripped `estate.args` content,
`""` when absent), call `tmux.new_window("vgctl", "estate-" ++ estate,
command)`; on `some session` write the marker `estate_{estate}.session` and
succeed, on `none` log the failure and leave the registry untouched.
The surrounding try/except means no exception escapes; the Lean function is
total. Note: no check of the registry or of the process state precedes the
`new_window` call. -/
def start_estate (cfg : Config) (argsOf : String → String) (w : World)
    (estate : String) : World × Bool :=
  let session_name := "estate-" ++ estate
  let command := start_command cfg estate (argsOf estate)
  match new_window tmuxMachine w.tmux "vgctl" session_name command with
  | (t, some session) =>
    ({ tmux := t, registry := set_marker w.registry ("estate_" ++ estate) session }, true)
  | (t, none) => ({ w with tmux := t }, false)

/-- From `EstateControlScreen.stop_estate` (gridctl_complete.py lines
731-761), `graceful` being the modal choice: when the marker exists, either
send `"shutdown"` through `tmux.send_text` leaving the marker in place
(graceful), or run `pkill -f {estates}/{estate}` with `check=False` (its
exit status never consulted) and unlink the marker (forced); when the
marker does not exist, only log that no session file was found. -/
def stop_estate (cfg : Config) (w : World) (estate : String)
    (graceful : Bool) : World × List Act :=
  let head := Act.log ("Stopping " ++ estate ++ "...")
  match get_marker w.registry ("estate_" ++ estate) with
  | some session =>
    if graceful then
      let (t, _) := send_text tmuxMachine w.tmux session "shutdown"
      ({ w with tmux := t },
        [head, Act.sendText session "shutdown",
          Act.log ("Sent graceful shutdown to " ++ estate), Act.sleep 1])
    else
      ({ w with registry := del_marker w.registry ("estate_" ++ estate) },
        [head, Act.pkill (cfg.estates ++ "/" ++ estate),
          Act.log ("Force killed " ++ estate), Act.sleep 1])
  | none =>
    (w, [head, Act.log ("No session file found for " ++ estate)])

/-- The shell command `start_robust` builds (gridctl_complete.py lines
920-925). -/
def robust_command (cfg : Config) : String :=
  "cd \"" ++ cfg.base ++ "\"; if [ -f Robust.dll ]; then " ++
  "dotnet Robust.dll -inifile=Robust.HG.ini; elif [ -f Robust.exe ]; then " ++
  "mono --desktop -O=all Robust.exe -inifile=Robust.HG.ini; " ++
  "else echo \"ERROR: No Robust executable found\"; fi"

/-- From `RobustControlScreen.start_robust` (gridctl_complete.py lines
912-939): `tmux.new_window("vgctl", "robust", command)`; on success write
the `robust.session` marker, on failure only log — no marker write. -/
def start_robust (cfg : Config) (w : World) : World × Bool :=
  match new_window tmuxMachine w.tmux "vgctl" "robust" (robust_command cfg) with
  | (t, some session) =>
    ({ tmux := t, registry := set_marker w.registry "robust" session }, true)
  | (t, none) => ({ w with tmux := t }, false)

/-- From `RobustControlScreen.stop_robust` (gridctl_complete.py lines
941-965), `graceful` being the confirmation-modal choice: when the
`robust.session` marker exists, graceful sends `"shutdown"` fire-and-forget
and keeps the marker, forced runs `pkill -f Robust` (`check=False`) and
unlinks the marker; when it does not exist, log "No Robust session found".
The try/except means no exception escapes; the Lean function is total. -/
def stop_robust (cfg : Config) (w : World) (graceful : Bool) : World × List Act :=
  let _ := cfg
  let head := Act.log "Stopping Robust server..."
  match get_marker w.registry "robust" with
  | some session =>
    if graceful then
      let (t, _) := send_text tmuxMachine w.tmux session "shutdown"
      ({ w with tmux := t },
        [head, Act.sendText session "shutdown",
          Act.log "Sent graceful shutdown to Robust"])
    else
      ({ w with registry := del_marker w.registry "robust" },
        [head, Act.pkill "Robust", Act.log "Force killed Robust"])
  | none => (w, [head, Act.log "No Robust session found"])

/-- Loop body of `start_all_estates` (gridctl_complete.py lines 807-816):
`i` is the running 0-based index, `total` the length of the stopped list;
each iteration starts the estate, then sleeps `batch_delay = 20` when
`(i + 1) % batch_size == 0 and i + 1 < len(stopped_estates)`
(with `batch_size = 3`), else sleeps 2. -/
def start_all_go (cfg : Config) (argsOf : String → String) (total : Nat) :
    World → Nat → List String → World × List Act
  | w, _, [] => (w, [])
  | w, i, e :: rest =>
    let (w1, _ok) := start_estate cfg argsOf w e
    let d : Act := if (i + 1) % 3 == 0 && i + 1 < total
      then Act.sleep 20 else Act.sleep 2
    let (w2, acts) := start_all_go cfg argsOf total w1 (i + 1) rest
    (w2, Act.startEstate e :: d :: acts)

/-- From `EstateControlScreen.start_all_estates` (gridctl_complete.py lines
779-825): filter the detected list down to the not-running estates
(`running` is the `estates.running_instance` pgrep oracle); return
immediately when none are stopped; otherwise run the batched loop. -/
def start_all_estates (cfg : Config) (argsOf : String → String)
    (running : String → Bool) (w : World) (estate_list : List String) :
    World × List Act :=
  let stopped_estates := estate_list.filter (fun e => !(running e))
  if stopped_estates.isEmpty then (w, [])
  else start_all_go cfg argsOf stopped_estates.length w 0 stopped_estates

/-- Loop body of `stop_all_estates` (gridctl_complete.py lines 852-861):
each iteration sends `"shutdown"` via `tmux.send_text` when the estate's
marker exists (nothing otherwise), then sleeps 2 — unconditionally, with no
batch logic. -/
def stop_all_go : World → List String → World × List Act
  | w, [] => (w, [])
  | w, e :: rest =>
    let (w1, a1) : World × List Act :=
      match get_marker w.registry ("estate_" ++ e) with
      | some session =>
        let (t, _) := send_text tmuxMachine w.tmux session "shutdown"
        ({ w with tmux := t }, [Act.sendText session "shutdown"])
      | none => (w, [])
    let (w2, acts) := stop_all_go w1 rest
    (w2, a1 ++ Act.sleep 2 :: acts)

/-- From `EstateControlScreen.stop_all_estates` (gridctl_complete.py lines
827-870): filter the detected list down to the running estates; return
immediately when none run; otherwise loop over them in order. -/
def stop_all_estates (running : String → Bool) (w : World)
    (estate_list : List String) : World × List Act :=
  let running_estates := estate_list.filter running
  if running_estates.isEmpty then (w, [])
  else stop_all_go w running_estates

/-- Extracts the target of a `tmux.send_text` action, for counting the stop
operations a trace issues. -/
def sendTarget : Act → Option String
  | Act.sendText t _ => some t
  | _ => none

/-- Concrete SSH configuration (host, user, identity file, default port)
used to evaluate the transport prefix. -/
def exC3cfg : TransportConfig :=
  { mode := "ssh", host := some "grid.example.org", user := some "opensim",
    port := 22, identity_file := some "/home/u/.ssh/id_ed25519", password := none }

/-- Concrete environment: force-remote set, host and password configured,
no identity file, every ssh probe reachable. -/
def exC4env : Env :=
  { vars := fun n =>
      if n = "VG_FORCE_SSH" then some "1"
      else if n = "VG_REMOTE_HOST" then some "grid.example.org"
      else if n = "VG_REMOTE_PASSWORD" then some "hunter2"
      else none,
    which_tmux := false,
    path_exists := fun _ => false,
    ssh_rc_zero := fun _ => true }

/-- Concrete environment: force-remote set, host and identity configured,
probe reachable. -/
def exC4envW : Env :=
  { vars := fun n =>
      if n = "VG_FORCE_SSH" then some "yes"
      else if n = "VG_REMOTE_HOST" then some "grid.example.org"
      else if n = "VG_REMOTE_KEY" then some "/home/u/.ssh/id_ed25519"
      else none,
    which_tmux := true,
    path_exists := fun _ => true,
    ssh_rc_zero := fun _ => true }

/-- Concrete app config used by the control-operation examples. -/
def exCfg : Config :=
  { base := "/home/opensim/opensim/bin",
    estates := "/home/opensim/opensim/bin/Estates" }

/-- Fresh world: working tmux daemon, no sessions, no windows, no markers. -/
def exC1w : World :=
  { tmux := { available := true, sessions := [], windows := [], window_ok := true },
    registry := [] }

/-- The world `exC1w` after one successful `start_estate` of `alpha`:
base session `vgctl` exists, one window `estate-alpha`, marker saved.
The `alpha` process is taken as confirmed running. -/
def exC1w1 : World :=
  { tmux :=
      { available := true, sessions := ["vgctl"],
        windows := [("vgctl", "estate-alpha")], window_ok := true },
    registry := [("estate_alpha", "vgctl:estate-alpha")] }

/-- World with six running estates `e1..e6`, each with its saved marker. -/
def exC2w : World :=
  { tmux := { available := true, sessions := ["vgctl"], windows := [], window_ok := true },
    registry :=
      [("estate_e1", "vgctl:estate-e1"), ("estate_e2", "vgctl:estate-e2"),
        ("estate_e3", "vgctl:estate-e3"), ("estate_e4", "vgctl:estate-e4"),
        ("estate_e5", "vgctl:estate-e5"), ("estate_e6", "vgctl:estate-e6")] }

/-- The discovery order of the six estates of `exC2w`. -/
def exC2list : List String := ["e1", "e2", "e3", "e4", "e5", "e6"]

/-- Concrete estates root: two valid estates listed out of order, one
directory without `OpenSim.ini`, one without region configs, one plain
file. -/
def exC5root : EstatesRoot :=
  { rootExists := true,
    children :=
      [⟨"beta", true, true, ["r.ini"]⟩,
        ⟨"alpha", true, true, ["a.ini", "b.ini"]⟩,
        ⟨"noini", true, false, ["a.ini"]⟩,
        ⟨"noregions", true, true, []⟩,
        ⟨"somefile", false, true, ["a.ini"]⟩] }

/-- World with one running estate `alpha` and a robust server, both with
markers. -/
def exC7w : World :=
  { tmux :=
      { available := true, sessions := ["vgctl"],
        windows := [("vgctl", "estate-alpha"), ("vgctl", "robust")],
        window_ok := true },
    registry := [("estate_alpha", "vgctl:estate-alpha"), ("robust", "vgctl:robust")] }

/-- World whose tmux daemon is unavailable (binary missing): every start
fails. -/
def exC8w : World :=
  { tmux := { available := false, sessions := [], windows := [], window_ok := true },
    registry := [("estate_old", "vgctl:estate-old")] }

/-- Fresh world for the robust scenario: no marker at all. -/
def exC9w : World :=
  { tmux := { available := true, sessions := [], windows := [], window_ok := true },
    registry := [] }

/-- World with a robust marker present. -/
def exC9wm : World :=
  { tmux :=
      { available := true, sessions := ["vgctl"],
        windows := [("vgctl", "robust")], window_ok := true },
    registry := [("robust", "vgctl:robust")] }

/-- tmux daemon on which the base session `vgctl` already exists. -/
def exC10t : TmuxServer :=
  { available := true, sessions := ["vgctl"], windows := [], window_ok := true }

theorem chars_le_total (as bs : List Char) :
    chars_le as bs = true ∨ chars_le bs as = true := by
  induction as generalizing bs with
  | nil => left; rfl
  | cons a as ih =>
    cases bs with
    | nil => right; rfl
    | cons b bs =>
      by_cases h1 : a.toNat < b.toNat
      · left; simp [chars_le, h1]
      · by_cases h2 : b.toNat < a.toNat
        · right; simp [chars_le, h1, h2]
        · rcases ih bs with h | h
          · left; simp [chars_le, h1, h2, h]
          · right; simp [chars_le, h1, h2, h]

theorem chars_le_trans (as bs cs : List Char) (h1 : chars_le as bs = true)
    (h2 : chars_le bs cs = true) : chars_le as cs = true := by
  induction as generalizing bs cs with
  | nil => rfl
  | cons a as ih =>
    cases bs with
    | nil => simp [chars_le] at h1
    | cons b bs =>
      cases cs with
      | nil => simp [chars_le] at h2
      | cons c cs =>
        simp only [chars_le] at h1 h2 ⊢
        split at h1
        · split at h2
          · have : a.toNat < c.toNat := by omega
            simp [this]
          · split at h2
            · simp at h2
            · have : a.toNat < c.toNat := by omega
              simp [this]
        · split at h1
          · simp at h1
          · split at h2
            · have : a.toNat < c.toNat := by omega
              simp [this]
            · split at h2
              · simp at h2
              · have hac1 : ¬ a.toNat < c.toNat := by omega
                have hac2 : ¬ c.toNat < a.toNat := by omega
                simp only [hac1, hac2, if_neg, if_false]
                exact ih bs cs h1 h2

/-- C3. The claim says `SSHTransport.run` prefixes argv with an invocation
carrying batch mode, an accept-new host-key policy and a 5-second connect
timeout. It does not: at a concrete configuration (host, user, identity,
port 22) the executed argv is exactly
`ssh -p 22 -i <identity> user@host <command>`, with none of the three
`-o` options. -/
theorem claimC3_counterexample :
    ssh_run_argv exC3cfg ["tmux", "-V"]
      = ["ssh", "-p", "22", "-i", "/home/u/.ssh/id_ed25519",
          "opensim@grid.example.org", "tmux", "-V"]
    ∧ "BatchMode=yes" ∉ ssh_run_argv exC3cfg ["tmux", "-V"]
    ∧ "StrictHostKeyChecking=accept-new" ∉ ssh_run_argv exC3cfg ["tmux", "-V"]
    ∧ "ConnectTimeout=5" ∉ ssh_run_argv exC3cfg ["tmux", "-V"]
    ∧ "-o" ∉ ssh_run_argv exC3cfg ["tmux", "-V"] := by
  decide

/-- C3, amended: for every command argv, `SSHTransport.run` executes
`ssh -p PORT [-i IDENTITY] USER@HOST <argv>` — explicit port, identity file
only when configured, user prefix only when configured — and the batch-mode,
accept-new-host-key and 5-second-connect-timeout options are carried only by
the unauthenticated reachability probe's invocation (`_probe_ssh`), which
appends a no-op remote command `true`. -/
theorem claimC3_amended (cfg : TransportConfig) (command : List String) :
    ssh_run_argv cfg command =
      ["ssh", "-p", toString cfg.port]
        ++ (if truthy cfg.identity_file then ["-i", cfg.identity_file.getD ""] else [])
        ++ ((if truthy cfg.user then cfg.user.getD "" ++ "@" else "")
              ++ cfg.host.getD "") :: command
    ∧ (∀ (host : String) (user : Option String) (port : Nat) (identity : Option String),
        probe_ssh_cmd host user port identity =
          ["ssh", "-o", "BatchMode=yes", "-o", "StrictHostKeyChecking=accept-new",
            "-o", "ConnectTimeout=5", "-p", toString port]
            ++ (if truthy identity then ["-i", identity.getD ""] else [])
            ++ [(if truthy user then user.getD "" ++ "@" else "") ++ host, "true"]) := by
  constructor
  · simp [ssh_run_argv, ssh_prefix_cmd]
  · intro host user port identity
    simp [probe_ssh_cmd]

/-- C5. `detect_estates` returns an empty sequence (not an error) when the
root does not exist; its output is sorted ascending in the lexicographic
order; and it consists of exactly the names of the children of the root
that pass the validity predicate (directory, `OpenSim.ini` present, at
least one `Regions/*.ini`) — as a permutation fact and as a membership
characterisation. -/
theorem claimC5 (fs : EstatesRoot) :
    (fs.rootExists = false → detect_estates fs = [])
    ∧ (detect_estates fs).Pairwise strOrd
    ∧ List.Perm (detect_estates fs)
        (if fs.rootExists then
          (fs.children.filter is_valid_estate_local).map EstateEntry.name
        else [])
    ∧ (∀ n, n ∈ detect_estates fs ↔
        fs.rootExists = true
          ∧ ∃ e, e ∈ fs.children ∧ is_valid_estate_local e = true ∧ e.name = n) := by
  haveI htot : IsTotal String strOrd := ⟨fun a b => chars_le_total a.data b.data⟩
  haveI htr : IsTrans String strOrd := ⟨fun a b c => chars_le_trans a.data b.data c.data⟩
  have hperm : List.Perm (detect_estates fs)
      (if fs.rootExists then
        (fs.children.filter is_valid_estate_local).map EstateEntry.name
      else []) := by
    by_cases h : fs.rootExists
    · simp only [detect_estates, h, not_true, if_neg, if_pos]
      simpa [h] using
        List.perm_insertionSort strOrd
          ((fs.children.filter is_valid_estate_local).map EstateEntry.name)
    · simp [detect_estates, h]
  refine ⟨fun h => by simp [detect_estates, h], ?_, hperm, fun n => ?_⟩
  · by_cases h : fs.rootExists
    · simp only [detect_estates, h]
      simpa [h] using
        List.sorted_insertionSort strOrd
          ((fs.children.filter is_valid_estate_local).map EstateEntry.name)
    · simp [detect_estates, h]
  · rw [hperm.mem_iff]
    by_cases h : fs.rootExists
    · simp only [h, if_pos, true_and, List.mem_map, List.mem_filter]
      constructor
      · rintro ⟨e, ⟨he, hv⟩, rfl⟩
        exact ⟨e, he, hv, rfl⟩
      · rintro ⟨e, he, hv, rfl⟩
        exact ⟨e, ⟨he, hv⟩, rfl⟩
    · simp [h]

/-- C5 witness: a missing root yields `[]`, and on the concrete root
(`beta`, `alpha` valid; three invalid entries) the result is the sorted
pair with exactly the valid names as members. -/
theorem claimC5_witness :
    detect_estates { rootExists := false, children := [⟨"beta", true, true, ["r.ini"]⟩] } = []
    ∧ detect_estates exC5root = ["alpha", "beta"]
    ∧ ("alpha" ∈ detect_estates exC5root
        ↔ exC5root.rootExists = true
          ∧ ∃ e, e ∈ exC5root.children ∧ is_valid_estate_local e = true ∧ e.name = "alpha") :=
  ⟨(claimC5 { rootExists := false, children := [⟨"beta", true, true, ["r.ini"]⟩] }).1 rfl,
    by decide,
    (claimC5 exC5root).2.2.2 "alpha"⟩

/-- C4. The claim says the force-remote override yields an SSH transport
whenever a host plus (identity or password) is present and the reachability
probe succeeds. At a concrete environment with force-remote on, a host and
a password configured, no identity file, and every probe reachable, the
claim's precondition holds, yet `detect_transport` returns Unknown: the
code additionally requires an identity file (`if ident and _probe_ssh`). -/
theorem claimC4_counterexample :
    env_bool exC4env "VG_FORCE_SSH" = true
    ∧ env_host exC4env = "grid.example.org"
    ∧ truthy (env_password exC4env) = true
    ∧ truthy (env_key exC4env) = false
    ∧ probe_ssh exC4env (env_host exC4env) (env_user exC4env) (env_port exC4env)
        (env_key exC4env) = true
    ∧ detect_transport exC4env "/base" "/estates" none = TransportResult.unknown := by
  decide

/-- C4, amended ordered policy: under force-remote, SSH exactly when the
host is truthy, the identity file is truthy (a password alone does not
suffice) and the probe succeeds, else Unknown; under force-local, Local
unconditionally; otherwise Local when tmux is on PATH and both paths exist;
otherwise SSH when the fallback host plus credential material (identity or
password) is configured; otherwise Unknown. -/
theorem claimC4_amended (e : Env) (base estates : String)
    (cfg : Option TransportConfig) :
    (env_bool e "VG_FORCE_SSH" = true →
      detect_transport e base estates cfg =
        (if env_host e ≠ ""
            ∧ truthy (env_key e) = true
            ∧ probe_ssh e (env_host e) (env_user e) (env_port e) (env_key e) = true
         then TransportResult.ssh (env_host e) (env_user e) (env_port e)
            (env_key e) (env_password e)
         else TransportResult.unknown))
    ∧ (env_bool e "VG_FORCE_SSH" = false → env_bool e "VG_FORCE_LOCAL" = true →
        detect_transport e base estates cfg = TransportResult.localT)
    ∧ (env_bool e "VG_FORCE_SSH" = false → env_bool e "VG_FORCE_LOCAL" = false →
        e.which_tmux = true → e.path_exists base = true → e.path_exists estates = true →
        detect_transport e base estates cfg = TransportResult.localT)
    ∧ (env_bool e "VG_FORCE_SSH" = false → env_bool e "VG_FORCE_LOCAL" = false →
        ¬ (e.which_tmux = true ∧ e.path_exists base = true ∧ e.path_exists estates = true) →
        detect_transport e base estates cfg =
          (if fb_host e cfg ≠ ""
              ∧ (truthy (fb_key e cfg) = true ∨ truthy (fb_password e cfg) = true)
           then TransportResult.ssh (fb_host e cfg) (fb_user e cfg) (fb_port e cfg)
              (fb_key e cfg) (fb_password e cfg)
           else TransportResult.unknown)) := by
  refine ⟨fun h1 => ?_, fun h1 h2 => ?_, fun h1 h2 h3 h4 h5 => ?_, fun h1 h2 h3 => ?_⟩
  · simp only [detect_transport, h1, if_true]
    by_cases hh : env_host e ≠ ""
    · by_cases hk : truthy (env_key e) = true
      · by_cases hp : probe_ssh e (env_host e) (env_user e) (env_port e) (env_key e) = true
        · simp [hh, hk, hp]
        · simp [hh, hk, hp]
      · by_cases hpw : truthy (env_password e) = true
        · simp [hh, hk, hpw]
        · simp [hh, hk, hpw]
    · simp [hh]
  · simp [detect_transport, h1, h2]
  · simp [detect_transport, h1, h2, h3, h4, h5]
  · simp only [detect_transport, h1, h2, Bool.false_eq_true, if_false]
    rw [if_neg h3]

/-- C4 witness: at a concrete force-remote environment with host, identity
and a succeeding probe, the amended policy yields exactly the SSH transport
built from the environment. -/
theorem claimC4_amended_witness :
    detect_transport exC4envW "/base" "/estates" none =
      TransportResult.ssh "grid.example.org" none 22
        (some "/home/u/.ssh/id_ed25519") none := by
  have h := (claimC4_amended exC4envW "/base" "/estates" none).1 (by decide)
  rw [h]
  decide

theorem tmux_run_version (t : TmuxServer) :
    tmux_run t ["tmux", "-V"] = (t, if t.available then 0 else 1) := rfl

theorem tmux_run_new_session (t : TmuxServer) (s : String) :
    tmux_run t ["tmux", "new-session", "-d", "-s", s, "-x", "200", "-y", "50"] =
      (if ¬ t.available then (t, 1)
       else if t.sessions.contains s then (t, 1)
       else ({ t with sessions := s :: t.sessions }, 0)) := rfl

theorem tmux_run_new_window (t : TmuxServer) (s n c : String) :
    tmux_run t ["tmux", "new-window", "-t", s, "-n", n, c] =
      (if ¬ t.available then (t, 1)
       else if t.sessions.contains s ∧ t.window_ok then
        ({ t with windows := t.windows ++ [(s, n)] }, 0)
       else (t, 1)) := rfl

theorem tmux_run_send_keys (t : TmuxServer) (tgt txt : String) :
    tmux_run t ["tmux", "send-keys", "-t", tgt, txt, "C-m"] =
      (t, if t.available then 0 else 1) := rfl

/-- C10. On the tmux daemon model, whenever tmux is available, the base
session already exists (so the unconditional `new-session` step fails with
exit status 1) and window creation succeeds, `new_window` still returns the
`session:name` handle and appends the window: the exit status of the
base-session creation step is ignored — the result depends only on tmux
availability and the window-creation exit status. -/
theorem claimC10 (t : TmuxServer) (s n c : String)
    (hav : t.available = true) (hs : t.sessions.contains s = true)
    (hw : t.window_ok = true) :
    (tmux_run t ["tmux", "new-session", "-d", "-s", s, "-x", "200", "-y", "50"]).2 = 1
    ∧ new_window tmuxMachine t s n c =
        ({ t with windows := t.windows ++ [(s, n)] }, some (s ++ ":" ++ n)) := by
  have hmem : s ∈ t.sessions := by simpa using hs
  constructor
  · rw [tmux_run_new_session]
    simp [hav, hmem]
  · simp [new_window, ensure_tmux, tmuxMachine, tmux_run_version,
      tmux_run_new_session, tmux_run_new_window, hav, hmem, hw]

/-- C10 witness: concrete daemon with existing base session `vgctl`. -/
theorem claimC10_witness :
    (tmux_run exC10t ["tmux", "new-session", "-d", "-s", "vgctl", "-x", "200", "-y", "50"]).2 = 1
    ∧ new_window tmuxMachine exC10t "vgctl" "robust" "cmd" =
        ({ exC10t with windows := exC10t.windows ++ [("vgctl", "robust")] },
          some ("vgctl" ++ ":" ++ "robust")) :=
  claimC10 exC10t "vgctl" "robust" "cmd" rfl (by decide) rfl

theorem get_marker_set_marker (reg : Registry) (key content : String) :
    get_marker (set_marker reg key content) key = some content := by
  simp only [get_marker, set_marker]
  rw [List.find?_append]
  have h1 : (reg.filter (fun p => p.1 ≠ key)).find? (fun p => p.1 == key) = none := by
    rw [List.find?_eq_none]
    intro p hp
    have := (List.mem_filter.mp hp).2
    simp at this ⊢
    exact this
  simp [h1]

theorem get_marker_del_marker (reg : Registry) (key : String) :
    get_marker (del_marker reg key) key = none := by
  simp only [get_marker, del_marker]
  have h1 : (reg.filter (fun p => p.1 ≠ key)).find? (fun p => p.1 == key) = none := by
    rw [List.find?_eq_none]
    intro p hp
    have := (List.mem_filter.mp hp).2
    simp at this ⊢
    exact this
  simp [h1]

theorem new_window_tmuxMachine (t : TmuxServer) (s n c : String) :
    new_window tmuxMachine t s n c =
      (if t.available = true then
        (if t.window_ok = true then
          ({ (if t.sessions.contains s then t else { t with sessions := s :: t.sessions })
              with windows := t.windows ++ [(s, n)] }, some (s ++ ":" ++ n))
        else
          ((if t.sessions.contains s then t else { t with sessions := s :: t.sessions }), none))
      else (t, none)) := by
  by_cases hav : t.available = true
  · by_cases hc : t.sessions.contains s = true
    · have hmem : s ∈ t.sessions := by simpa using hc
      by_cases hw : t.window_ok = true
      · simp [new_window, ensure_tmux, tmuxMachine, tmux_run_version,
          tmux_run_new_session, tmux_run_new_window, hav, hmem, hw]
      · simp [new_window, ensure_tmux, tmuxMachine, tmux_run_version,
          tmux_run_new_session, tmux_run_new_window, hav, hmem, hw]
    · have hmem : s ∉ t.sessions := by simpa using hc
      by_cases hw : t.window_ok = true
      · simp [new_window, ensure_tmux, tmuxMachine, tmux_run_version,
          tmux_run_new_session, tmux_run_new_window, hav, hmem, hw]
      · simp [new_window, ensure_tmux, tmuxMachine, tmux_run_version,
          tmux_run_new_session, tmux_run_new_window, hav, hmem, hw]
  · simp [new_window, ensure_tmux, tmuxMachine, tmux_run_version, hav]

/-- C7. A forced stop always leaves no registry marker for the logical id:
for the estate operation and for the robust operation, whatever the prior
state (marker present or not), and whenever the marker was present the trace
contains the `pkill -f` terminate signal built from the command-line
heuristic (the estate directory path, resp. the string `Robust`), whose
exit status is never consulted (`check=False`) — the marker is cleared even
when no OS process matched. -/
theorem claimC7 (cfg : Config) (w : World) (estate : String) :
    get_marker (stop_estate cfg w estate false).1.registry ("estate_" ++ estate) = none
    ∧ get_marker (stop_robust cfg w false).1.registry "robust" = none
    ∧ (∀ s, get_marker w.registry ("estate_" ++ estate) = some s →
        Act.pkill (cfg.estates ++ "/" ++ estate) ∈ (stop_estate cfg w estate false).2)
    ∧ (∀ s, get_marker w.registry "robust" = some s →
        Act.pkill "Robust" ∈ (stop_robust cfg w false).2) := by
  refine ⟨?_, ?_, ?_, ?_⟩
  · cases h : get_marker w.registry ("estate_" ++ estate) with
    | none => simp [stop_estate, h]
    | some s => simp [stop_estate, h, get_marker_del_marker]
  · cases h : get_marker w.registry "robust" with
    | none => simp [stop_robust, h]
    | some s => simp [stop_robust, h, get_marker_del_marker]
  · intro s h
    simp [stop_estate, h]
  · intro s h
    simp [stop_robust, h]

/-- C7 witness: with both markers present, the forced stops emit the pkill
signals and afterwards neither marker exists. -/
theorem claimC7_witness :
    Act.pkill (exCfg.estates ++ "/" ++ "alpha") ∈ (stop_estate exCfg exC7w "alpha" false).2
    ∧ Act.pkill "Robust" ∈ (stop_robust exCfg exC7w false).2
    ∧ get_marker (stop_estate exCfg exC7w "alpha" false).1.registry ("estate_" ++ "alpha") = none
    ∧ get_marker (stop_robust exCfg exC7w false).1.registry "robust" = none :=
  ⟨(claimC7 exCfg exC7w "alpha").2.2.1 "vgctl:estate-alpha" (by decide),
    (claimC7 exCfg exC7w "alpha").2.2.2 "vgctl:robust" (by decide),
    (claimC7 exCfg exC7w "alpha").1,
    (claimC7 exCfg exC7w "alpha").2.1⟩

/-- C8. Start failure leaves no partial state: when `start_estate` (resp.
`start_robust`) reports failure — in particular whenever the tmux binary is
missing or window creation fails — the registry is exactly as before, and a
marker is persisted only on success (in which case it holds the
`vgctl:<window>` handle). The operations are total functions: no exception
is raised. -/
theorem claimC8 (cfg : Config) (argsOf : String → String) (w : World) (estate : String) :
    ((start_estate cfg argsOf w estate).2 = false →
      (start_estate cfg argsOf w estate).1.registry = w.registry)
    ∧ (w.tmux.available = false → (start_estate cfg argsOf w estate).2 = false)
    ∧ (w.tmux.window_ok = false → (start_estate cfg argsOf w estate).2 = false)
    ∧ ((start_estate cfg argsOf w estate).2 = true →
      get_marker (start_estate cfg argsOf w estate).1.registry ("estate_" ++ estate)
        = some ("vgctl" ++ ":" ++ ("estate-" ++ estate)))
    ∧ ((start_robust cfg w).2 = false → (start_robust cfg w).1.registry = w.registry)
    ∧ ((start_robust cfg w).2 = true →
      get_marker (start_robust cfg w).1.registry "robust" = some ("vgctl" ++ ":" ++ "robust")) := by
  have he := new_window_tmuxMachine w.tmux "vgctl" ("estate-" ++ estate)
    (start_command cfg estate (argsOf estate))
  have hr := new_window_tmuxMachine w.tmux "vgctl" "robust" (robust_command cfg)
  by_cases hav : w.tmux.available = true
  · by_cases hw : w.tmux.window_ok = true
    · simp only [hav, hw, if_pos, if_true] at he hr
      refine ⟨?_, ?_, ?_, ?_, ?_, ?_⟩
      · intro hfail
        exfalso
        simp [start_estate, he] at hfail
      · intro hcontra
        rw [hcontra] at hav
        exact absurd hav (by simp)
      · intro hcontra
        rw [hcontra] at hw
        exact absurd hw (by simp)
      · intro _
        simp [start_estate, he, get_marker_set_marker]
      · intro hfail
        exfalso
        simp [start_robust, hr] at hfail
      · intro _
        simp [start_robust, hr, get_marker_set_marker]
    · have hw' : w.tmux.window_ok = false := by
        cases h : w.tmux.window_ok
        · rfl
        · exact absurd h hw
      simp only [hav, hw', if_true, Bool.false_eq_true, if_false] at he hr
      refine ⟨?_, ?_, ?_, ?_, ?_, ?_⟩
      · intro _
        simp [start_estate, he]
      · intro hcontra
        rw [hcontra] at hav
        exact absurd hav (by simp)
      · intro _
        simp [start_estate, he]
      · intro hsucc
        exfalso
        simp [start_estate, he] at hsucc
      · intro _
        simp [start_robust, hr]
      · intro hsucc
        exfalso
        simp [start_robust, hr] at hsucc
  · have hav' : w.tmux.available = false := by
      cases h : w.tmux.available
      · rfl
      · exact absurd h hav
    simp only [hav', Bool.false_eq_true, if_false] at he hr
    refine ⟨?_, ?_, ?_, ?_, ?_, ?_⟩
    · intro _
      simp [start_estate, he]
    · intro _
      simp [start_estate, he]
    · intro _
      simp [start_estate, he]
    · intro hsucc
      exfalso
      simp [start_estate, he] at hsucc
    · intro _
      simp [start_robust, hr]
    · intro hsucc
      exfalso
      simp [start_robust, hr] at hsucc

/-- C8 witness: with the tmux binary missing, starting an estate and
starting robust both fail and leave the registry exactly as it was. -/
theorem claimC8_witness :
    (start_estate exCfg (fun _ => "") exC8w "alpha").2 = false
    ∧ (start_estate exCfg (fun _ => "") exC8w "alpha").1.registry = exC8w.registry
    ∧ (start_robust exCfg exC8w).2 = false
    ∧ (start_robust exCfg exC8w).1.registry = exC8w.registry :=
  ⟨(claimC8 exCfg (fun _ => "") exC8w "alpha").2.1 rfl,
    (claimC8 exCfg (fun _ => "") exC8w "alpha").1
      ((claimC8 exCfg (fun _ => "") exC8w "alpha").2.1 rfl),
    by decide,
    (claimC8 exCfg (fun _ => "") exC8w "alpha").2.2.2.2.1 (by decide)⟩

/-- C9. From a state with no `robust` marker, a graceful robust stop
reports "No Robust session found", changes nothing (in particular an empty
registry stays empty) and, being a total function, raises no exception;
with a marker present, the graceful stop sends the `"shutdown"` command
fire-and-forget and leaves the marker untouched. -/
theorem claimC9 (cfg : Config) (w : World) :
    (get_marker w.registry "robust" = none →
      stop_robust cfg w true
        = (w, [Act.log "Stopping Robust server...", Act.log "No Robust session found"]))
    ∧ (∀ s, get_marker w.registry "robust" = some s →
        (stop_robust cfg w true).1.registry = w.registry
        ∧ get_marker (stop_robust cfg w true).1.registry "robust" = some s
        ∧ Act.sendText s "shutdown" ∈ (stop_robust cfg w true).2) := by
  constructor
  · intro h
    simp [stop_robust, h]
  · intro s h
    exact ⟨by simp [stop_robust, h], by simp [stop_robust, h],
      by simp [stop_robust, h]⟩

/-- C9 witness: concretely, the fresh no-marker world is returned unchanged
with the "No Robust session found" report, and the marker world keeps its
marker after a graceful stop. -/
theorem claimC9_witness :
    stop_robust exCfg exC9w true
      = (exC9w, [Act.log "Stopping Robust server...", Act.log "No Robust session found"])
    ∧ get_marker (stop_robust exCfg exC9wm true).1.registry "robust" = some "vgctl:robust"
    ∧ Act.sendText "vgctl:robust" "shutdown" ∈ (stop_robust exCfg exC9wm true).2 :=
  ⟨(claimC9 exCfg exC9w).1 rfl,
    ((claimC9 exCfg exC9wm).2 "vgctl:robust" rfl).2.1,
    ((claimC9 exCfg exC9wm).2 "vgctl:robust" rfl).2.2⟩

/-- C1. The claim says a second `start(id)` in a row — marker present,
process confirmed running — is rejected as an idempotent no-op with no new
multiplexer window created. It is not: `start_estate` consults neither the
registry nor the process state, so the second call issues another
window-creation command. Concretely, after a successful start of `alpha`
(which leaves the marker and one window `estate-alpha`), a second start
reports success again and a second window named `estate-alpha` is created
(the windows list grows from one to two entries); the marker file's content
is rewritten unchanged. -/
theorem claimC1_counterexample :
    (start_estate exCfg (fun _ => "") exC1w "alpha").1 = exC1w1
    ∧ (start_estate exCfg (fun _ => "") exC1w "alpha").2 = true
    ∧ (start_estate exCfg (fun _ => "") exC1w1 "alpha").2 = true
    ∧ (start_estate exCfg (fun _ => "") exC1w1 "alpha").1.tmux.windows
        = [("vgctl", "estate-alpha"), ("vgctl", "estate-alpha")]
    ∧ (start_estate exCfg (fun _ => "") exC1w1 "alpha").1.registry = exC1w1.registry := by
  refine ⟨by decide, by decide, by decide, by decide, by decide⟩

/-- C1, amended: a second `start(id)` while the marker exists and the
process runs is not rejected: it succeeds again, creates one additional
window named `estate-<id>` in the existing session (no new session is
created), and rewrites the marker with identical content — so the marker's
content is unchanged, but the operation is not a no-op. -/
theorem claimC1_amended (cfg : Config) (argsOf : String → String) (w : World)
    (estate : String)
    (hav : w.tmux.available = true) (hw : w.tmux.window_ok = true)
    (hs : w.tmux.sessions.contains "vgctl" = true)
    (hm : get_marker w.registry ("estate_" ++ estate)
      = some ("vgctl" ++ ":" ++ ("estate-" ++ estate))) :
    (start_estate cfg argsOf w estate).2 = true
    ∧ (start_estate cfg argsOf w estate).1.tmux.sessions = w.tmux.sessions
    ∧ (start_estate cfg argsOf w estate).1.tmux.windows
        = w.tmux.windows ++ [("vgctl", "estate-" ++ estate)]
    ∧ get_marker (start_estate cfg argsOf w estate).1.registry ("estate_" ++ estate)
        = get_marker w.registry ("estate_" ++ estate) := by
  have he := new_window_tmuxMachine w.tmux "vgctl" ("estate-" ++ estate)
    (start_command cfg estate (argsOf estate))
  simp only [hav, hw, hs, if_pos, if_true] at he
  refine ⟨by simp [start_estate, he], by simp [start_estate, he],
    by simp [start_estate, he], ?_⟩
  simp [start_estate, he, get_marker_set_marker, hm]

/-- C1 witness for the amended statement, at the concrete world reached by
one successful start of `alpha`. -/
theorem claimC1_amended_witness :
    (start_estate exCfg (fun _ => "") exC1w1 "alpha").2 = true
    ∧ (start_estate exCfg (fun _ => "") exC1w1 "alpha").1.tmux.sessions
        = exC1w1.tmux.sessions
    ∧ (start_estate exCfg (fun _ => "") exC1w1 "alpha").1.tmux.windows
        = exC1w1.tmux.windows ++ [("vgctl", "estate-" ++ "alpha")]
    ∧ get_marker (start_estate exCfg (fun _ => "") exC1w1 "alpha").1.registry
        ("estate_" ++ "alpha")
        = get_marker exC1w1.registry ("estate_" ++ "alpha") :=
  claimC1_amended exCfg (fun _ => "") exC1w1 "alpha" rfl rfl (by decide) (by decide)

theorem stop_all_go_trace (sessionOf : String → String) (lst : List String) :
    ∀ (w : World),
      (∀ e ∈ lst, get_marker w.registry ("estate_" ++ e) = some (sessionOf e)) →
      (stop_all_go w lst).2 =
        (lst.map (fun e => [Act.sendText (sessionOf e) "shutdown", Act.sleep 2])).flatten := by
  induction lst with
  | nil => intro w _; simp [stop_all_go]
  | cons e rest ih =>
    intro w h
    have he := h e (by simp)
    rcases hst : send_text tmuxMachine w.tmux (sessionOf e) "shutdown" with ⟨t, b⟩
    have hrec := ih { w with tmux := t } (fun e' he' => h e' (by simp [he']))
    simp [stop_all_go, he, hst, hrec]

theorem shutdown_trace_filterMap (f : String → String) (lst : List String) :
    ((lst.map (fun e => [Act.sendText (f e) "shutdown", Act.sleep 2])).flatten.filterMap
      sendTarget) = lst.map f := by
  induction lst with
  | nil => simp
  | cons e rest ih => simp [sendTarget, ih]

theorem shutdown_trace_sleeps (f : String → String) (lst : List String) :
    ∀ n, Act.sleep n ∈ (lst.map
      (fun e => [Act.sendText (f e) "shutdown", Act.sleep 2])).flatten → n = 2 := by
  induction lst with
  | nil => intro n h; simp at h
  | cons e rest ih =>
    intro n h
    simp only [List.map_cons, List.flatten_cons, List.mem_append] at h
    rcases h with h1 | h2
    · rcases List.mem_cons.mp h1 with h | h
      · exact Act.noConfusion h
      · rcases List.mem_cons.mp h with h | h
        · injection h
        · simp at h
    · exact ih n h2

theorem shutdown_trace_count (f : String → String) (lst : List String) :
    ((lst.map (fun e => [Act.sendText (f e) "shutdown", Act.sleep 2])).flatten.count
      (Act.sleep 2)) = lst.length := by
  induction lst with
  | nil => simp
  | cons e rest ih =>
    simp [List.count_cons, ih]

/-- C2. The claim says `stopAll` pauses for the 20-unit cooldown after
every batch of 3 stop operations. It does not: on six running estates (all
with markers), the loop issues exactly six shutdown sends but its trace
contains no 20-unit sleep at all — only the 2-unit pause after each
operation. (`start_all_estates` has the batch logic; `stop_all_estates`
does not.) -/
theorem claimC2_counterexample :
    ((stop_all_estates (fun _ => true) exC2w exC2list).2.filterMap sendTarget).length = 6
    ∧ Act.sleep 20 ∉ (stop_all_estates (fun _ => true) exC2w exC2list).2
    ∧ Act.sleep 2 ∈ (stop_all_estates (fun _ => true) exC2w exC2list).2 := by
  refine ⟨by decide, by decide, by decide⟩

/-- C2, amended: `stopAll` over the running estates (each with a saved
marker) issues one shutdown send per running estate, in the order of the
discovered list (for the real caller that list is the sorted
`detect_estates` output), with a 2-unit pause after every operation
including the last; every sleep in the trace is the 2-unit pause — no
20-unit batch cooldown is applied. -/
theorem claimC2_amended (w : World) (running : String → Bool)
    (estate_list : List String) (sessionOf : String → String)
    (hm : ∀ e ∈ estate_list.filter running,
      get_marker w.registry ("estate_" ++ e) = some (sessionOf e)) :
    ((stop_all_estates running w estate_list).2.filterMap sendTarget)
        = (estate_list.filter running).map sessionOf
    ∧ (∀ n, Act.sleep n ∈ (stop_all_estates running w estate_list).2 → n = 2)
    ∧ ((stop_all_estates running w estate_list).2.count (Act.sleep 2)
        = (estate_list.filter running).length) := by
  by_cases hne : (estate_list.filter running).isEmpty
  · have hnil : estate_list.filter running = [] := by
      simpa [List.isEmpty_iff] using hne
    simp [stop_all_estates, hnil]
  · have htr := stop_all_go_trace sessionOf (estate_list.filter running) w hm
    have hgo : (stop_all_estates running w estate_list).2
        = (stop_all_go w (estate_list.filter running)).2 := by
      simp [stop_all_estates, hne]
    rw [hgo, htr]
    exact ⟨shutdown_trace_filterMap sessionOf _,
      fun n hn => shutdown_trace_sleeps sessionOf _ n hn,
      shutdown_trace_count sessionOf _⟩

/-- C2 witness for the amended statement, on six running estates with their
markers. -/
theorem claimC2_amended_witness :
    ((stop_all_estates (fun _ => true) exC2w exC2list).2.filterMap sendTarget)
        = (exC2list.filter (fun _ => true)).map (fun e => "vgctl:estate-" ++ e)
    ∧ ((stop_all_estates (fun _ => true) exC2w exC2list).2.count (Act.sleep 2)
        = (exC2list.filter (fun _ => true)).length) :=
  ⟨(claimC2_amended exC2w (fun _ => true) exC2list
      (fun e => "vgctl:estate-" ++ e) (by decide)).1,
    (claimC2_amended exC2w (fun _ => true) exC2list
      (fun e => "vgctl:estate-" ++ e) (by decide)).2.2⟩

theorem start_all_go_trace (cfg : Config) (argsOf : String → String) (total : Nat)
    (lst : List String) : ∀ (w : World) (i : Nat),
    (start_all_go cfg argsOf total w i lst).2 =
      ((lst.enumFrom i).map (fun p =>
        [Act.startEstate p.2,
          if (p.1 + 1) % 3 == 0 && p.1 + 1 < total then Act.sleep 20
          else Act.sleep 2])).flatten := by
  induction lst with
  | nil => intro w i; simp [start_all_go]
  | cons e rest ih =>
    intro w i
    rcases hse : start_estate cfg argsOf w e with ⟨w1, ok⟩
    simp [start_all_go, hse, ih w1 (i + 1), List.enumFrom]

/-- C6. `startAll` over the `C` stopped estates runs them in order and its
trace is exactly: for the `k`-th start (1-based), the start followed by the
20-unit cooldown when `k` is a multiple of 3 and further starts remain
(`k < C`), and by the short 2-unit delay otherwise — in particular no
20-unit cooldown follows the final batch when it completes the set exactly
(`k = C`), only the short delay. -/
theorem claimC6 (cfg : Config) (argsOf : String → String) (running : String → Bool)
    (w : World) (estate_list : List String) :
    (start_all_estates cfg argsOf running w estate_list).2 =
      (((estate_list.filter (fun e => !(running e))).enum).map (fun p =>
        [Act.startEstate p.2,
          if (p.1 + 1) % 3 == 0
              && p.1 + 1 < (estate_list.filter (fun e => !(running e))).length
            then Act.sleep 20 else Act.sleep 2])).flatten := by
  by_cases hne : (estate_list.filter (fun e => !(running e))).isEmpty
  · have hnil : estate_list.filter (fun e => !(running e)) = [] := by
      simpa [List.isEmpty_iff] using hne
    simp [start_all_estates, hnil]
  · have htr := start_all_go_trace cfg argsOf
      (estate_list.filter (fun e => !(running e))).length
      (estate_list.filter (fun e => !(running e))) w 0
    simp only [start_all_estates, hne, Bool.false_eq_true, if_false, List.enum]
    exact htr

end VergeGrid
